import Mathlib

/-!
Verification development for the editor script `auto_assign_textures.py`.

The script runs inside a game-engine editor and wires textures into
materials.  We give a shallow embedding: the pure string heuristics are
translated directly, host-API state (asset registry, filesystem, asset
loading, material edits) is modelled by an explicit `Host` record of call
behaviours, and the imperative entry points run in a small
exception-plus-trace monad `M`.  Log calls, expression creation, property
sets, channel connections and recompilation are recorded as `Event`s.
-/

namespace AutoAssign

/-! ### Python string primitives

The script manipulates `str` values with `lower`, `upper`, `startswith`,
`endswith`, slicing, `split` and `in`.  We model these over `String.data`
(lists of characters) so that everything is structural and computable.
Case mapping uses the ASCII `Char.toLower`/`Char.toUpper`, which agrees
with Python for the ASCII identifiers the script works with.
-/

/-- Python `s.lower()` (ASCII). -/
def pyLower (s : String) : String := ⟨s.data.map Char.toLower⟩

/-- Python `s.upper()` (ASCII). -/
def pyUpper (s : String) : String := ⟨s.data.map Char.toUpper⟩

/-- Python `s.startswith(pre)`. -/
def pyStartsWith (s pre : String) : Bool := pre.data.isPrefixOf s.data

/-- Python `s.endswith(post)`. -/
def pyEndsWith (s post : String) : Bool := post.data.reverse.isPrefixOf s.data.reverse

/-- Python `s[:-n]` for `n > 0` (empty result when `len(s) <= n`). -/
def pyDropLast (s : String) (n : Nat) : String := ⟨s.data.take (s.data.length - n)⟩

/-- Characters strictly before the first occurrence of `sep` (`none` when
`sep` does not occur).  Mirrors the search order of Python `str.find`. -/
def beforeFirstOcc (sep : List Char) : List Char → Option (List Char)
  | [] => none
  | c :: rest =>
    if sep.isPrefixOf (c :: rest) then some []
    else (beforeFirstOcc sep rest).map (fun pre => c :: pre)

/-- Python `sub in s` (for nonempty `sub`). -/
def pyContains (s sub : String) : Bool := (beforeFirstOcc sub.data s.data).isSome

/-- Python `s.split(sub)[0]` (for nonempty `sub`): the part of `s` before
the first occurrence of `sub`, or `s` itself when `sub` does not occur. -/
def pyBeforeFirst (s sub : String) : String :=
  match beforeFirstOcc sub.data s.data with
  | some pre => ⟨pre⟩
  | none => s

/-- Split a character list at a separator character (used for `/`). -/
def splitCharAux (sep : Char) : List Char → List Char → List (List Char)
  | [], acc => [acc.reverse]
  | c :: rest, acc =>
    if c = sep then acc.reverse :: splitCharAux sep rest []
    else splitCharAux sep rest (c :: acc)

/-- Nonempty `/`-separated components of a path, as in the component
split performed by `posixpath.relpath`. -/
def splitComponents (s : String) : List String :=
  ((splitCharAux '/' s.data []).filter (fun cs => !cs.isEmpty)).map (fun cs => (⟨cs⟩ : String))

/-- Length of the common prefix of two component lists
(`genericpath.commonprefix` on split paths). -/
def commonLen : List String → List String → Nat
  | a :: as, b :: bs => if a = b then commonLen as bs + 1 else 0
  | _, _ => 0

/-- Join components with `/` (`posixpath.join` over relative components). -/
def joinSlash : List String → String
  | [] => ""
  | [x] => x
  | x :: y :: xs => x ++ "/" ++ joinSlash (y :: xs)

/-- `os.path.relpath(path, start)` for already-absolute, already-normal
paths, which is the only way the script calls it: both arguments come from
the walk below the content directory. -/
def relpath (path start : String) : String :=
  let pl := splitComponents path
  let sl := splitComponents start
  let i := commonLen sl pl
  let rel := List.replicate (sl.length - i) ".." ++ pl.drop i
  if rel.isEmpty then "." else joinSlash rel

/-- `os.path.join(a, b)` with POSIX separators. -/
def pjoin (a b : String) : String :=
  if pyStartsWith b "/" then b
  else if a.data.isEmpty then a ++ b
  else if pyEndsWith a "/" then a ++ b
  else a ++ "/" ++ b

/-- Index of the last occurrence of a character. -/
def lastIndexOf (c : Char) : List Char → Option Nat
  | [] => none
  | x :: xs =>
    match lastIndexOf c xs with
    | some i => some (i + 1)
    | none => if x = c then some 0 else none

/-- `os.path.splitext(p)[0]`: everything before the extension dot.  The
dot must lie in the basename (after the last `/`) and must have a non-dot
character of the basename before it, exactly as in `posixpath._splitext`. -/
def splitextRoot (p : String) : String :=
  let cs := p.data
  match lastIndexOf '.' cs with
  | none => p
  | some di =>
    let fi := match lastIndexOf '/' cs with
      | none => 0
      | some si => si + 1
    if fi < di ∧ !((cs.drop fi).take (di - fi)).all (fun c => c = '.') then ⟨cs.take di⟩ else p

/-- Python `s.replace(old, new)` for one-character patterns
(the script only replaces backslashes by slashes). -/
def pyReplaceChar (s : String) (old new : Char) : String :=
  ⟨s.data.map (fun c => if c = old then new else c)⟩

/-- Python truthiness of an optional string: `None` and `""` are falsy. -/
def strOptFalsy : Option String → Bool
  | none => true
  | some s => s.data.isEmpty

/-! ### Data model of the host environment seen by `find_texture_by_type`  -/

/-- One asset-registry entry (the fields of `unreal.AssetData` the script
reads, already converted by `str(...)`). -/
structure AssetData where
  asset_name : String
  package_path : String
  package_name : String
deriving DecidableEq

/-- A directory of the project content tree: its name, the plain files it
contains, and its subdirectories, in the order `os.walk` reports them. -/
structure FSTree where
  name : String
  files : List String
  subdirs : List FSTree

/-- The read-only host state consulted by `find_texture_by_type`:
the `Texture2D` entries returned by the asset-registry query (lines 12-17),
`unreal.Paths.project_content_dir()` (line 30), and the directory tree
walked by `os.walk` (line 34).  The walk starts at the node
`content_tree`, whose own path is the string `content_dir`. -/
structure FTEnv where
  registry_textures : List AssetData
  content_dir : String
  content_tree : FSTree

/-- Lines 6-7: strip a case-insensitive `_SG` suffix from the shader
name (`shader_name = shader_name[:-3]`). -/
def strip_sg_suffix (shader_name : String) : String :=
  if pyEndsWith (pyUpper shader_name) "_SG" then pyDropLast shader_name 3 else shader_name

/-- Line 24 / line 42: the lowercase name prefix that registry assets and
file stems are matched against, `f"{shader_name.lower()}_sg_{texture_type.lower()}"`. -/
def search_key (shader_name texture_type : String) : String :=
  pyLower shader_name ++ "_sg_" ++ pyLower texture_type

/-- Line 24: the registry-entry match test of the loop over `all_textures`. -/
def registry_match (shader_name texture_type : String) (td : AssetData) : Bool :=
  pyStartsWith (pyLower td.asset_name) (search_key shader_name texture_type)

/-- Line 39: `file.lower().endswith((".uasset", ".png", ".tga", ".jpg", ".jpeg"))`. -/
def is_texture_file (file : String) : Bool :=
  [".uasset", ".png", ".tga", ".jpg", ".jpeg"].any (fun e => pyEndsWith (pyLower file) e)

/-- Lines 40-42: the stem of the file matches the search key. -/
def stem_match (shader_name texture_type file : String) : Bool :=
  pyStartsWith (pyLower (splitextRoot file)) (search_key shader_name texture_type)

/-- Line 51: `base_name.lower().endswith((".png", ".tga", ".jpg", ".jpeg"))`. -/
def image_ext_match (b : String) : Bool :=
  [".png", ".tga", ".jpg", ".jpeg"].any (fun e => pyEndsWith (pyLower b) e)

/-!
Lines 34-46: the `os.walk` loop.  For each directory (in pre-order, as
`os.walk` yields with `topdown=True`) the body first removes the first
subdirectory named `"Games"` (`dirs.remove("Games")` removes the first
occurrence, and pruning the yielded `dirs` list stops `os.walk` from
descending into it), then appends the first matching texture file of the
directory (the inner loop `break`s after the first match).  The removal
of the first `"Games"` entry is realised structurally by the
`removed_games` flag: the first `"Games"` subdirectory encountered at a
level is skipped, later ones are walked.
-/
mutual
def walk_tree (shader_name texture_type root : String) : FSTree → List String
  | FSTree.mk _ files subs =>
    (match files.find? (fun file => is_texture_file file && stem_match shader_name texture_type file) with
     | some file => [pjoin root file]
     | none => []) ++
    walk_subdirs shader_name texture_type root false subs

def walk_subdirs (shader_name texture_type parent : String) (removed_games : Bool) :
    List FSTree → List String
  | [] => []
  | t :: ts =>
    if removed_games = false ∧ t.name = "Games" then
      walk_subdirs shader_name texture_type parent true ts
    else
      walk_tree shader_name texture_type (pjoin parent t.name) t ++
        walk_subdirs shader_name texture_type parent removed_games ts
end

/-- Lines 29-59: the filesystem fallback of `find_texture_by_type`.
`matching_textures[0]` is made relative to the content directory, the
extension is split off (twice when an image extension is still present),
backslashes become slashes, and the result is prefixed with `/Game/`. -/
def filesystem_search (env : FTEnv) (shader_name texture_type : String) : Option String :=
  let matching_textures := walk_tree shader_name texture_type env.content_dir env.content_tree
  match matching_textures with
  | [] => none
  | m0 :: _ =>
    let rel_path := relpath m0 env.content_dir
    let base_name := splitextRoot rel_path
    let base_name := if image_ext_match base_name then splitextRoot base_name else base_name
    some ("/Game/" ++ pyReplaceChar base_name '\\' '/')

/-- Lines 5-59: `find_texture_by_type(shader_name, texture_type)`.
The registry scan returns `f"{package_path}/{asset_name}"` for the first
matching entry; otherwise the filesystem fallback runs. -/
def find_texture_by_type (env : FTEnv) (shader_name texture_type : String) : Option String :=
  let shader_name := strip_sg_suffix shader_name
  match env.registry_textures.find? (registry_match shader_name texture_type) with
  | some texture_data => some (texture_data.package_path ++ "/" ++ texture_data.asset_name)
  | none => filesystem_search env shader_name texture_type

/-- Lines 62-63. -/
def find_basecolor_texture (env : FTEnv) (shader_name : String) : Option String :=
  find_texture_by_type env shader_name "BaseColor"

/-- Lines 66-67. -/
def find_normal_texture (env : FTEnv) (shader_name : String) : Option String :=
  find_texture_by_type env shader_name "Normal"

/-- Lines 70-79: three searches in order, each tried only when the
previous result is falsy (`if not texture_path`). -/
def find_orm_texture (env : FTEnv) (shader_name : String) : Option String :=
  let texture_path := find_texture_by_type env shader_name "OcclusionRoughnessMetallic"
  let texture_path :=
    if strOptFalsy texture_path then find_texture_by_type env shader_name "ORM" else texture_path
  let texture_path :=
    if strOptFalsy texture_path then find_texture_by_type env shader_name "AmbientOcclusion" else texture_path
  texture_path

/-- Line 150: `material_name.split("_SG")[0] if "_SG" in material_name
else material_name`. -/
def shader_name_of_material (material_name : String) : String :=
  if pyContains material_name "_SG" then pyBeforeFirst material_name "_SG" else material_name

/-! ### The effectful part: events, exceptions and the host

The stateful host calls are modelled in a monad
`M alpha = Trace → Except String alpha × Trace`: a Python exception is an
`Except.error` carrying the exception message, and every observable host
effect is appended to the event list of the `Trace`.  An event is
recorded when the corresponding host call succeeds (for `load_asset` the
event records the attempt, since claim C5 counts load attempts).
-/

/-- Severity of an `unreal.log` / `log_warning` / `log_error` call. -/
inductive LogLevel where
  | info
  | warning
  | error
deriving DecidableEq

/-- The `unreal.MaterialProperty` values used by the script. -/
inductive MatProp where
  | MP_BASE_COLOR
  | MP_NORMAL
  | MP_AMBIENT_OCCLUSION
  | MP_ROUGHNESS
  | MP_METALLIC
deriving DecidableEq

/-- A material-expression node handle: the node lives inside the material
it was created in (`unreal.MaterialEditingLibrary.create_material_expression`
takes the material), and is distinguished by a creation counter. -/
structure NodeRef where
  material : String
  idx : Nat
deriving DecidableEq

/-- A texture asset handle (only its name is observable to the script). -/
structure TextureAsset where
  tname : String
deriving DecidableEq

/-- A value written by `set_editor_property` or by attribute assignment. -/
inductive PVal where
  | pint (i : Int)
  | pbool (b : Bool)
  | ptex (t : String)
  | psampler_normal
deriving DecidableEq

/-- The object a property is written on: an expression node or a texture. -/
inductive PTarget where
  | node (n : NodeRef)
  | tex (t : String)
deriving DecidableEq

/-- Observable effects of one invocation. -/
inductive Event where
  | log (lvl : LogLevel) (msg : String)
  | createExpression (n : NodeRef)
  | setProp (t : PTarget) (property : String) (v : PVal)
  | connect (n : NodeRef) (output : String) (mp : MatProp)
  | loadAsset (path : String)
  | recompile (material : String)
deriving DecidableEq

/-- Trace of one invocation: events so far plus the expression-node
creation counter. -/
structure Trace where
  events : List Event
  nextId : Nat
deriving DecidableEq

/-- The exception-plus-trace monad the script runs in. -/
def M (α : Type) : Type := Trace → Except String α × Trace

def M.mpure {α : Type} (a : α) : M α := fun s => (.ok a, s)

def M.mbind {α β : Type} (x : M α) (f : α → M β) : M β := fun s =>
  match x s with
  | (.ok a, s') => f a s'
  | (.error e, s') => (.error e, s')

instance monadM : Monad M where
  pure := M.mpure
  bind := M.mbind

/-- Python `try`/`except Exception`: effects performed before the raise
are kept, the handler receives the exception message. -/
def M.mtry {α : Type} (x : M α) (handler : String → M α) : M α := fun s =>
  match x s with
  | (.ok a, s') => (.ok a, s')
  | (.error e, s') => handler e s'

def emit (ev : Event) : M Unit := fun s =>
  (.ok (), { s with events := s.events ++ [ev] })

/-- An asset in the content-browser selection: `isinstance(asset,
unreal.Material)` distinguishes materials from everything else. -/
inductive Asset where
  | material (name : String)
  | other (name : String)
deriving DecidableEq

/-- The outcome of a fallible host call: it raises, or returns a value. -/
inductive CallOutcome (α : Type) where
  | raises (e : String)
  | returns (a : α)

/-- The host editor, as observed through the script's API calls.  The
pure lookups of `find_texture_by_type` read `env`; each fallible call
family has a behaviour function saying whether the call raises (and what
`load_asset` / `get_asset_by_object_path` return). -/
structure Host where
  selected_assets : List Asset
  env : FTEnv
  load_behavior : String → CallOutcome (Option TextureAsset)
  reg_lookup_behavior : String → CallOutcome (Option AssetData)
  create_behavior : String → Nat → Option String
  setprop_behavior : PTarget → String → PVal → Option String
  connect_behavior : NodeRef → String → MatProp → Option String
  recompile_behavior : String → Option String

def unreal_log (msg : String) : M Unit := emit (.log .info msg)

def unreal_log_warning (msg : String) : M Unit := emit (.log .warning msg)

def unreal_log_error (msg : String) : M Unit := emit (.log .error msg)

/-- `unreal.load_asset(path)`: the attempt is recorded, then the call
returns or raises according to the host. -/
def unreal_load_asset (h : Host) (path : String) : M (Option TextureAsset) := fun s =>
  let s' := { s with events := s.events ++ [.loadAsset path] }
  match h.load_behavior path with
  | .raises e => (.error e, s')
  | .returns r => (.ok r, s')

/-- `asset_registry.get_asset_by_object_path(path)` (line 99). -/
def get_asset_by_object_path (h : Host) (path : String) : M (Option AssetData) := fun s =>
  match h.reg_lookup_behavior path with
  | .raises e => (.error e, s)
  | .returns r => (.ok r, s)

/-- `material_edit_lib.create_material_expression(material, ...)`: on
success a fresh node of the material is returned and recorded. -/
def create_material_expression (h : Host) (material : String) : M NodeRef := fun s =>
  match h.create_behavior material s.nextId with
  | some e => (.error e, s)
  | none =>
    (.ok ⟨material, s.nextId⟩,
      { events := s.events ++ [.createExpression ⟨material, s.nextId⟩], nextId := s.nextId + 1 })

/-- `set_editor_property` and attribute assignment on host objects. -/
def set_editor_property (h : Host) (t : PTarget) (property : String) (v : PVal) : M Unit := fun s =>
  match h.setprop_behavior t property v with
  | some e => (.error e, s)
  | none => (.ok (), { s with events := s.events ++ [.setProp t property v] })

/-- `material_edit_lib.connect_material_property(node, output, mp)`. -/
def connect_material_property (h : Host) (n : NodeRef) (output : String) (mp : MatProp) :
    M Unit := fun s =>
  match h.connect_behavior n output mp with
  | some e => (.error e, s)
  | none => (.ok (), { s with events := s.events ++ [.connect n output mp] })

/-- `material_edit_lib.recompile_material(material)`. -/
def recompile_material (h : Host) (material : String) : M Unit := fun s =>
  match h.recompile_behavior material with
  | some e => (.error e, s)
  | none => (.ok (), { s with events := s.events ++ [.recompile material] })

/-- Lines 82-113: `load_texture_asset(texture_path)`.  A falsy path
returns `None` at once; otherwise the first load is tried, a raise is
caught, logged, and answered by one alternative attempt (registry lookup
by object path, then load by package name), whose own raise is also
caught.  Every failing branch falls through to `return None`. -/
def load_texture_asset (h : Host) (texture_path : Option String) : M (Option TextureAsset) :=
  if strOptFalsy texture_path then pure none
  else
    let path := texture_path.getD ""
    M.mtry
      (do
        let texture_asset ← unreal_load_asset h path
        match texture_asset with
        | some t => do
            unreal_log ("Successfully loaded texture: " ++ path)
            pure (some t)
        | none => do
            unreal_log_warning ("Failed to load texture at path: " ++ path)
            pure none)
      (fun e => do
        unreal_log_error ("Error loading texture: " ++ e)
        unreal_log "Trying alternative texture loading approach..."
        M.mtry
          (do
            let asset_data ← get_asset_by_object_path h path
            match asset_data with
            | some ad => do
                let texture_asset ← unreal_load_asset h ad.package_name
                match texture_asset with
                | some t => do
                    unreal_log ("Successfully loaded texture using alternative method: " ++ path)
                    pure (some t)
                | none => do
                    unreal_log_warning "Alternative texture loading failed"
                    pure none
            | none => do
                unreal_log_warning ("Could not find asset data for: " ++ path)
                pure none)
          (fun e2 => do
            unreal_log_error ("Alternative texture loading failed with error: " ++ e2)
            pure none))

/-- Lines 116-130: `configure_texture_settings(texture_asset, is_orm)`.
With `is_orm` the sRGB flag is cleared inside a `try`; every path that
does not raise returns `True`, a raise is logged and returns `False`. -/
def configure_texture_settings (h : Host) (texture_asset : Option TextureAsset)
    (is_orm : Bool) : M Bool :=
  match texture_asset with
  | none => pure false
  | some t =>
    M.mtry
      (if is_orm then do
          set_editor_property h (.tex t.tname) "srgb" (.pbool false)
          unreal_log "Disabled sRGB for ORM texture"
          pure true
        else pure true)
      (fun e => do
        unreal_log_error ("Error configuring texture settings: " ++ e)
        pure false)

/-!
Lines 154-169 / 171-186 / 188-207: the three per-channel blocks of the
material loop, extracted as definitions.  Literal apostrophes of the log
f-strings are omitted from the message texts.  The attribute assignments
`material_expression_editor_x = -400` etc. are modelled as property sets
on the node.
-/

/-- Lines 154-169: the BaseColor block. -/
def process_basecolor (h : Host) (material shader_name : String) : M Unit := do
  let texture_path := find_basecolor_texture h.env shader_name
  if strOptFalsy texture_path then
    unreal_log_warning ("No texture with " ++ shader_name ++ " and BaseColor found")
  else do
    let basecolor_sample ← create_material_expression h material
    set_editor_property h (.node basecolor_sample) "material_expression_editor_x" (.pint (-400))
    set_editor_property h (.node basecolor_sample) "material_expression_editor_y" (.pint 0)
    let texture_asset ← load_texture_asset h texture_path
    match texture_asset with
    | some ta => do
        set_editor_property h (.node basecolor_sample) "texture" (.ptex ta.tname)
        connect_material_property h basecolor_sample "RGB" .MP_BASE_COLOR
        unreal_log ("Added BaseColor texture to material " ++ material)
    | none => unreal_log_warning "Failed to add BaseColor texture to material"

/-- Lines 171-186: the Normal block (the sampler type is set before the
texture is loaded). -/
def process_normal (h : Host) (material shader_name : String) : M Unit := do
  let normal_path := find_normal_texture h.env shader_name
  if strOptFalsy normal_path then
    unreal_log_warning ("No texture with " ++ shader_name ++ " and Normal found")
  else do
    let normal_sample ← create_material_expression h material
    set_editor_property h (.node normal_sample) "material_expression_editor_x" (.pint (-400))
    set_editor_property h (.node normal_sample) "material_expression_editor_y" (.pint 200)
    set_editor_property h (.node normal_sample) "sampler_type" .psampler_normal
    let normal_asset ← load_texture_asset h normal_path
    match normal_asset with
    | some ta => do
        set_editor_property h (.node normal_sample) "texture" (.ptex ta.tname)
        connect_material_property h normal_sample "RGB" .MP_NORMAL
        unreal_log ("Added Normal texture to material " ++ material)
    | none => unreal_log_warning "Failed to add Normal texture to material"

/-- Lines 188-207: the ORM block (sRGB is disabled on the loaded texture,
then R, G and B are wired to ambient occlusion, roughness and metallic). -/
def process_orm (h : Host) (material shader_name : String) : M Unit := do
  let orm_path := find_orm_texture h.env shader_name
  if strOptFalsy orm_path then
    unreal_log_warning
      ("No texture with " ++ shader_name ++ " and ORM/OcclusionRoughnessMetallic/AmbientOcclusion found")
  else do
    let orm_sample ← create_material_expression h material
    set_editor_property h (.node orm_sample) "material_expression_editor_x" (.pint (-400))
    set_editor_property h (.node orm_sample) "material_expression_editor_y" (.pint 400)
    let orm_asset ← load_texture_asset h orm_path
    match orm_asset with
    | some ta => do
        let _ ← configure_texture_settings h (some ta) true
        set_editor_property h (.node orm_sample) "texture" (.ptex ta.tname)
        connect_material_property h orm_sample "R" .MP_AMBIENT_OCCLUSION
        connect_material_property h orm_sample "G" .MP_ROUGHNESS
        connect_material_property h orm_sample "B" .MP_METALLIC
        unreal_log ("Added ORM texture to material " ++ material)
    | none => unreal_log_warning "Failed to add ORM texture to material"

/-- Lines 147-211: the body of the loop for one selected material. -/
def process_material (h : Host) (material : String) : M Unit := do
  unreal_log ("Processing material: " ++ material)
  let shader_name := shader_name_of_material material
  process_basecolor h material shader_name
  process_normal h material shader_name
  process_orm h material shader_name
  recompile_material h material
  unreal_log ("Finished processing material " ++ material)

/-- Lines 139-211: the loop over the selection.  Returns the
`processed_materials` names in order together with `materials_found`. -/
def process_assets (h : Host) : List Asset → M (List String × Bool)
  | [] => pure ([], false)
  | Asset.material m :: rest => do
      process_material h m
      let pr ← process_assets h rest
      pure (m :: pr.1, true)
  | Asset.other _ :: rest => process_assets h rest

/-- Lines 133-218: `add_texture_to_selected_material()`.  Returns `none`
for Python `None` and `some names` for the processed-materials list. -/
def add_texture_to_selected_material (h : Host) : M (Option (List String)) := do
  let selected_assets := h.selected_assets
  if selected_assets.isEmpty then do
    unreal_log_error "No assets selected in the content browser"
    pure none
  else do
    let pr ← process_assets h selected_assets
    if pr.2 = false then do
      unreal_log_error "No materials found in the selection"
      pure none
    else do
      unreal_log ("Processed " ++ toString pr.1.length ++ " materials in total")
      pure (some pr.1)

/-! ### Run characterizations

Pure functions computing the value, events and node-counter advance of
each effectful block, proved equal to the monadic runs.  `Benign` says
that the host calls the script does not guard with `try`/`except`
(expression creation, property sets on nodes, channel connection,
recompilation) do not raise; `load_asset`, `get_asset_by_object_path` and
property sets on textures may still raise arbitrarily. -/

/-- The uncaught host call families do not raise. -/
structure Benign (h : Host) : Prop where
  create_ok : ∀ m n, h.create_behavior m n = none
  node_setprop_ok : ∀ n p v, h.setprop_behavior (.node n) p v = none
  connect_ok : ∀ n o mp, h.connect_behavior n o mp = none
  recompile_ok : ∀ m, h.recompile_behavior m = none

/-- The result `load_texture_asset` computes, as a pure function of the host. -/
def load_result (h : Host) (texture_path : Option String) : Option TextureAsset :=
  if strOptFalsy texture_path then none
  else
    let path := texture_path.getD ""
    match h.load_behavior path with
    | .returns r => r
    | .raises _ =>
      match h.reg_lookup_behavior path with
      | .raises _ => none
      | .returns none => none
      | .returns (some ad) =>
        match h.load_behavior ad.package_name with
        | .raises _ => none
        | .returns r => r

/-- The events `load_texture_asset` emits, as a pure function of the host. -/
def load_events (h : Host) (texture_path : Option String) : List Event :=
  if strOptFalsy texture_path then []
  else
    let path := texture_path.getD ""
    match h.load_behavior path with
    | .returns (some _) => [.loadAsset path, .log .info ("Successfully loaded texture: " ++ path)]
    | .returns none => [.loadAsset path, .log .warning ("Failed to load texture at path: " ++ path)]
    | .raises e =>
      [.loadAsset path, .log .error ("Error loading texture: " ++ e),
       .log .info "Trying alternative texture loading approach..."] ++
      (match h.reg_lookup_behavior path with
       | .raises e2 => [.log .error ("Alternative texture loading failed with error: " ++ e2)]
       | .returns none => [.log .warning ("Could not find asset data for: " ++ path)]
       | .returns (some ad) =>
         [.loadAsset ad.package_name] ++
         (match h.load_behavior ad.package_name with
          | .raises e2 => [.log .error ("Alternative texture loading failed with error: " ++ e2)]
          | .returns (some _) =>
            [.log .info ("Successfully loaded texture using alternative method: " ++ path)]
          | .returns none => [.log .warning "Alternative texture loading failed"]))

/-- Whether the sRGB write of `configure_texture_settings` raises. -/
def srgb_raises (h : Host) (t : TextureAsset) : Option String :=
  h.setprop_behavior (.tex t.tname) "srgb" (.pbool false)

/-- Value of `configure_texture_settings(texture, is_orm=True)`. -/
def configure_result (h : Host) (t : TextureAsset) : Bool :=
  match srgb_raises h t with
  | some _ => false
  | none => true

/-- Events of `configure_texture_settings(texture, is_orm=True)`. -/
def configure_events (h : Host) (t : TextureAsset) : List Event :=
  match srgb_raises h t with
  | some e => [.log .error ("Error configuring texture settings: " ++ e)]
  | none => [.setProp (.tex t.tname) "srgb" (.pbool false), .log .info "Disabled sRGB for ORM texture"]

/-- Events of the BaseColor block, for start counter `k`. -/
def bc_events (h : Host) (material shader_name : String) (k : Nat) : List Event :=
  let texture_path := find_basecolor_texture h.env shader_name
  if strOptFalsy texture_path then
    [.log .warning ("No texture with " ++ shader_name ++ " and BaseColor found")]
  else
    [.createExpression ⟨material, k⟩,
     .setProp (.node ⟨material, k⟩) "material_expression_editor_x" (.pint (-400)),
     .setProp (.node ⟨material, k⟩) "material_expression_editor_y" (.pint 0)] ++
    load_events h texture_path ++
    (match load_result h texture_path with
     | some ta =>
        [.setProp (.node ⟨material, k⟩) "texture" (.ptex ta.tname),
         .connect ⟨material, k⟩ "RGB" .MP_BASE_COLOR,
         .log .info ("Added BaseColor texture to material " ++ material)]
     | none => [.log .warning "Failed to add BaseColor texture to material"])

/-- Node-counter advance of the BaseColor block. -/
def bc_delta (h : Host) (shader_name : String) : Nat :=
  if strOptFalsy (find_basecolor_texture h.env shader_name) then 0 else 1

/-- Events of the Normal block, for start counter `k`. -/
def normal_events (h : Host) (material shader_name : String) (k : Nat) : List Event :=
  let normal_path := find_normal_texture h.env shader_name
  if strOptFalsy normal_path then
    [.log .warning ("No texture with " ++ shader_name ++ " and Normal found")]
  else
    [.createExpression ⟨material, k⟩,
     .setProp (.node ⟨material, k⟩) "material_expression_editor_x" (.pint (-400)),
     .setProp (.node ⟨material, k⟩) "material_expression_editor_y" (.pint 200),
     .setProp (.node ⟨material, k⟩) "sampler_type" .psampler_normal] ++
    load_events h normal_path ++
    (match load_result h normal_path with
     | some ta =>
        [.setProp (.node ⟨material, k⟩) "texture" (.ptex ta.tname),
         .connect ⟨material, k⟩ "RGB" .MP_NORMAL,
         .log .info ("Added Normal texture to material " ++ material)]
     | none => [.log .warning "Failed to add Normal texture to material"])

/-- Node-counter advance of the Normal block. -/
def normal_delta (h : Host) (shader_name : String) : Nat :=
  if strOptFalsy (find_normal_texture h.env shader_name) then 0 else 1

/-- Events of the ORM block, for start counter `k`. -/
def orm_events (h : Host) (material shader_name : String) (k : Nat) : List Event :=
  let orm_path := find_orm_texture h.env shader_name
  if strOptFalsy orm_path then
    [.log .warning
      ("No texture with " ++ shader_name ++ " and ORM/OcclusionRoughnessMetallic/AmbientOcclusion found")]
  else
    [.createExpression ⟨material, k⟩,
     .setProp (.node ⟨material, k⟩) "material_expression_editor_x" (.pint (-400)),
     .setProp (.node ⟨material, k⟩) "material_expression_editor_y" (.pint 400)] ++
    load_events h orm_path ++
    (match load_result h orm_path with
     | some ta =>
        configure_events h ta ++
        [.setProp (.node ⟨material, k⟩) "texture" (.ptex ta.tname),
         .connect ⟨material, k⟩ "R" .MP_AMBIENT_OCCLUSION,
         .connect ⟨material, k⟩ "G" .MP_ROUGHNESS,
         .connect ⟨material, k⟩ "B" .MP_METALLIC,
         .log .info ("Added ORM texture to material " ++ material)]
     | none => [.log .warning "Failed to add ORM texture to material"])

/-- Node-counter advance of the ORM block. -/
def orm_delta (h : Host) (shader_name : String) : Nat :=
  if strOptFalsy (find_orm_texture h.env shader_name) then 0 else 1

/-- Events of one whole material iteration (lines 147-211). -/
def material_events (h : Host) (material : String) (k : Nat) : List Event :=
  let sh := shader_name_of_material material
  [.log .info ("Processing material: " ++ material)] ++
  bc_events h material sh k ++
  normal_events h material sh (k + bc_delta h sh) ++
  orm_events h material sh (k + bc_delta h sh + normal_delta h sh) ++
  [.recompile material, .log .info ("Finished processing material " ++ material)]

/-- Node-counter advance of one whole material iteration. -/
def material_delta (h : Host) (material : String) : Nat :=
  let sh := shader_name_of_material material
  bc_delta h sh + normal_delta h sh + orm_delta h sh

/-- `processed_materials`: the names of the materials of the selection,
in order. -/
def material_names : List Asset → List String
  | [] => []
  | Asset.material m :: rest => m :: material_names rest
  | Asset.other _ :: rest => material_names rest

/-- `materials_found`: whether the selection contains a material. -/
def has_material : List Asset → Bool
  | [] => false
  | Asset.material _ :: _ => true
  | Asset.other _ :: rest => has_material rest

/-- Events of the loop over the selection, for start counter `k`. -/
def assets_events (h : Host) : List Asset → Nat → List Event
  | [], _ => []
  | Asset.material m :: rest, k =>
      material_events h m k ++ assets_events h rest (k + material_delta h m)
  | Asset.other _ :: rest, k => assets_events h rest k

/-- Node-counter advance of the loop over the selection. -/
def assets_delta (h : Host) : List Asset → Nat
  | [] => 0
  | Asset.material m :: rest => material_delta h m + assets_delta h rest
  | Asset.other _ :: rest => assets_delta h rest

/-- Full-run events for an invocation started on the empty trace. -/
def run_events (h : Host) : List Event :=
  if h.selected_assets.isEmpty then [.log .error "No assets selected in the content browser"]
  else
    assets_events h h.selected_assets 0 ++
    (if has_material h.selected_assets then
      [.log .info ("Processed " ++ toString (material_names h.selected_assets).length ++
        " materials in total")]
     else [.log .error "No materials found in the selection"])

/-- Full-run return value. -/
def run_result (h : Host) : Option (List String) :=
  if h.selected_assets.isEmpty then none
  else if has_material h.selected_assets then some (material_names h.selected_assets)
  else none

/-! ### Observation helpers, spec-side definitions and concrete instances -/

/-- Value component of a run started on the empty trace. -/
def run0_value (h : Host) : Except String (Option (List String)) :=
  (add_texture_to_selected_material h ⟨[], 0⟩).1

/-- Events of a run started on the empty trace. -/
def run0_events (h : Host) : List Event :=
  (add_texture_to_selected_material h ⟨[], 0⟩).2.events

/-- Number of `createExpression` events whose node belongs to material `m`. -/
def creates_for (m : String) (evs : List Event) : Nat :=
  (evs.filter (fun ev => match ev with
    | .createExpression n => n.material == m
    | _ => false)).length

/-- Number of `load_asset` attempts recorded in a list of events. -/
def count_load_attempts (evs : List Event) : Nat :=
  (evs.filter (fun ev => match ev with
    | .loadAsset _ => true
    | _ => false)).length

/-- Number of occurrences of the alternative-loading marker log, i.e. how
often the fallback block of `load_texture_asset` was entered. -/
def count_fallback_markers (evs : List Event) : Nat :=
  (evs.filter (fun ev => match ev with
    | .log .info msg => msg == "Trying alternative texture loading approach..."
    | _ => false)).length

/-- The fallback inside `load_texture_asset` fails: the registry lookup
raises or resolves nothing, or the load by package name raises or
returns nothing. -/
def fallback_fails (h : Host) (path : String) : Bool :=
  match h.reg_lookup_behavior path with
  | .raises _ => true
  | .returns none => true
  | .returns (some ad) =>
    match h.load_behavior ad.package_name with
    | .raises _ => true
    | .returns none => true
    | .returns (some _) => false

/-- Modelled from the spec glossary, for claim C2 as stated: the shader
name is the material name with an `_SG` suffix stripped, the name being
used unchanged when the suffix is absent. -/
def spec_shader_name (material_name : String) : String :=
  if pyEndsWith material_name "_SG" then pyDropLast material_name 3 else material_name

/-- Modelled from the amended claim C2: truncate the material name at the
first case-sensitive occurrence of `_SG` when it occurs, then strip one
trailing case-insensitive `_SG`. -/
def amended_base (material_name : String) : String :=
  let truncated :=
    if pyContains material_name "_SG" then pyBeforeFirst material_name "_SG" else material_name
  if pyEndsWith (pyUpper truncated) "_SG" then pyDropLast truncated 3 else truncated

mutual
/-- Well-formedness of a directory tree, as far as claim C9 needs it: no
directory has two subdirectories named `"Games"` (sibling directory names
are unique on a real filesystem). -/
def tree_wf : FSTree → Bool
  | FSTree.mk _ _ subs => decide ((subs.map FSTree.name).count "Games" ≤ 1) && forest_wf subs
def forest_wf : List FSTree → Bool
  | [] => true
  | t :: ts => tree_wf t && forest_wf ts
end

mutual
/-- Modelled from claim C9: the tree with every subdirectory named
`"Games"` below the root removed, recursively. -/
def prune_games : FSTree → FSTree
  | FSTree.mk n fs subs => FSTree.mk n fs (prune_games_forest subs)
def prune_games_forest : List FSTree → List FSTree
  | [] => []
  | t :: ts =>
    if t.name = "Games" then prune_games_forest ts
    else prune_games t :: prune_games_forest ts
end

mutual
/-- Mutual induction for trees and forests. -/
def tree_rec_aux {P : FSTree → Prop} {Q : List FSTree → Prop}
    (hnode : ∀ n fs subs, Q subs → P (FSTree.mk n fs subs))
    (hnil : Q [])
    (hcons : ∀ t ts, P t → Q ts → Q (t :: ts)) : ∀ t : FSTree, P t
  | FSTree.mk n fs subs => hnode n fs subs (forest_rec_aux hnode hnil hcons subs)
def forest_rec_aux {P : FSTree → Prop} {Q : List FSTree → Prop}
    (hnode : ∀ n fs subs, Q subs → P (FSTree.mk n fs subs))
    (hnil : Q [])
    (hcons : ∀ t ts, P t → Q ts → Q (t :: ts)) : ∀ l : List FSTree, Q l
  | [] => hnil
  | t :: ts => hcons t ts (tree_rec_aux hnode hnil hcons t) (forest_rec_aux hnode hnil hcons ts)
end

/-- An empty content directory. -/
def emptyTree : FSTree := FSTree.mk "Content" [] []

/-- Registry entry matching shader `rock` and type `BaseColor`. -/
def rockBC : AssetData := ⟨"rock_sg_basecolor", "/Game/Tex", "/Game/Tex/rock_sg_basecolor"⟩

/-- Registry entry matching shader `rock` and type `OcclusionRoughnessMetallic`. -/
def rockORM : AssetData :=
  ⟨"rock_sg_occlusionroughnessmetallic", "/Game/Tex", "/Game/Tex/rock_sg_occlusionroughnessmetallic"⟩

/-- A host on which `create_material_expression` raises.  The registry
match for BaseColor makes the script reach the create call. -/
def host_create_raises : Host where
  selected_assets := [.material "Rock"]
  env := ⟨[rockBC], "/C/Content/", emptyTree⟩
  load_behavior := fun _ => .returns (some ⟨"T"⟩)
  reg_lookup_behavior := fun _ => .returns none
  create_behavior := fun _ _ => some "boom"
  setprop_behavior := fun _ _ _ => none
  connect_behavior := fun _ _ _ => none
  recompile_behavior := fun _ => none

/-- A fully benign host with one material and one BaseColor texture. -/
def host_benign : Host where
  selected_assets := [.material "Rock"]
  env := ⟨[rockBC], "/C/Content/", emptyTree⟩
  load_behavior := fun _ => .returns (some ⟨"BCTex"⟩)
  reg_lookup_behavior := fun _ => .returns none
  create_behavior := fun _ _ => none
  setprop_behavior := fun _ _ _ => none
  connect_behavior := fun _ _ _ => none
  recompile_behavior := fun _ => none

/-- A benign host on which no texture search succeeds. -/
def host_no_textures : Host where
  selected_assets := [.material "Rock"]
  env := ⟨[], "/C/Content/", emptyTree⟩
  load_behavior := fun _ => .returns none
  reg_lookup_behavior := fun _ => .returns none
  create_behavior := fun _ _ => none
  setprop_behavior := fun _ _ _ => none
  connect_behavior := fun _ _ _ => none
  recompile_behavior := fun _ => none

/-- A host on which every `load_asset` call raises and the registry
lookup by object path resolves nothing. -/
def host_load_raises : Host where
  selected_assets := [.material "Rock"]
  env := ⟨[rockBC], "/C/Content/", emptyTree⟩
  load_behavior := fun _ => .raises "io error"
  reg_lookup_behavior := fun _ => .returns none
  create_behavior := fun _ _ => none
  setprop_behavior := fun _ _ _ => none
  connect_behavior := fun _ _ _ => none
  recompile_behavior := fun _ => none

/-- A benign host with an ORM texture for material `Rock`. -/
def host_orm : Host where
  selected_assets := [.material "Rock"]
  env := ⟨[rockORM], "/C/Content/", emptyTree⟩
  load_behavior := fun _ => .returns (some ⟨"OrmTex"⟩)
  reg_lookup_behavior := fun _ => .returns none
  create_behavior := fun _ _ => none
  setprop_behavior := fun _ _ _ => none
  connect_behavior := fun _ _ _ => none
  recompile_behavior := fun _ => none

/-- What a connection to a material property says about the texture
searches of the node's material: the script only wires a channel whose
texture search succeeded. -/
def connect_requires (h : Host) (m : String) (mp : MatProp) : Prop :=
  match mp with
  | .MP_BASE_COLOR =>
      strOptFalsy (find_basecolor_texture h.env (shader_name_of_material m)) = false
  | .MP_NORMAL =>
      strOptFalsy (find_normal_texture h.env (shader_name_of_material m)) = false
  | _ =>
      strOptFalsy (find_orm_texture h.env (shader_name_of_material m)) = false

/-- The registry environment of the C2 counterexample. -/
def envC2 : FTEnv := ⟨[⟨"M_SG_BaseColor", "/Game/Tex", "/Game/Tex/M_SG_BaseColor"⟩], "/C/Content/", emptyTree⟩

/-- A content tree with a matching file inside a `Games` directory and a
second matching file in a regular directory. -/
def gamesTree : FSTree :=
  FSTree.mk "Content"
    []
    [FSTree.mk "Games" ["rock_sg_basecolor.png"] [],
     FSTree.mk "Textures" ["rock_sg_basecolor.uasset"] []]

/-! ### Run lemmas -/

/-- `load_texture_asset` never raises: it returns `load_result` and
appends `load_events`, for every host behaviour. -/
theorem load_texture_asset_run (h : Host) (texture_path : Option String) (s : Trace) :
    load_texture_asset h texture_path s =
      (.ok (load_result h texture_path),
        { s with events := s.events ++ load_events h texture_path }) := by
  unfold load_texture_asset load_result load_events
  cases hfp : strOptFalsy texture_path with
  | true => simp [monadM, M.mpure]
  | false =>
    cases hlb : h.load_behavior (texture_path.getD "") with
    | returns r =>
      cases r <;>
        simp [monadM, M.mbind, M.mpure, M.mtry, unreal_load_asset, unreal_log,
          unreal_log_warning, emit, hlb]
    | raises e =>
      cases hrb : h.reg_lookup_behavior (texture_path.getD "") with
      | raises e2 =>
        simp [monadM, M.mbind, M.mpure, M.mtry, unreal_load_asset, unreal_log,
          unreal_log_warning, unreal_log_error, get_asset_by_object_path, emit, hlb, hrb]
      | returns ad =>
        cases ad with
        | none =>
          simp [monadM, M.mbind, M.mpure, M.mtry, unreal_load_asset, unreal_log,
            unreal_log_warning, unreal_log_error, get_asset_by_object_path, emit, hlb, hrb]
        | some a =>
          cases hlb2 : h.load_behavior a.package_name with
          | raises e3 =>
            simp [monadM, M.mbind, M.mpure, M.mtry, unreal_load_asset, unreal_log,
              unreal_log_warning, unreal_log_error, get_asset_by_object_path, emit, hlb, hrb, hlb2]
          | returns r2 =>
            cases r2 <;>
              simp [monadM, M.mbind, M.mpure, M.mtry, unreal_load_asset, unreal_log,
                unreal_log_warning, unreal_log_error, get_asset_by_object_path, emit, hlb, hrb, hlb2]

/-- `configure_texture_settings` with `is_orm=True` never raises. -/
theorem configure_texture_settings_run (h : Host) (t : TextureAsset) (s : Trace) :
    configure_texture_settings h (some t) true s =
      (.ok (configure_result h t), { s with events := s.events ++ configure_events h t }) := by
  unfold configure_texture_settings configure_result configure_events srgb_raises
  cases hsp : h.setprop_behavior (.tex t.tname) "srgb" (.pbool false) <;>
    simp [monadM, M.mbind, M.mpure, M.mtry, set_editor_property, unreal_log,
      unreal_log_error, emit, hsp]

theorem process_basecolor_run (h : Host) (hb : Benign h) (material shader_name : String)
    (s : Trace) :
    process_basecolor h material shader_name s =
      (.ok (), ⟨s.events ++ bc_events h material shader_name s.nextId,
        s.nextId + bc_delta h shader_name⟩) := by
  unfold process_basecolor bc_events bc_delta
  cases hfp : strOptFalsy (find_basecolor_texture h.env shader_name) with
  | true =>
    simp [monadM, M.mbind, M.mpure, unreal_log_warning, emit, hfp]
  | false =>
    cases hlr : load_result h (find_basecolor_texture h.env shader_name) with
    | some ta =>
      simp [monadM, M.mbind, M.mpure, create_material_expression, set_editor_property,
        connect_material_property, unreal_log, unreal_log_warning, emit,
        hb.create_ok, hb.node_setprop_ok, hb.connect_ok, load_texture_asset_run, hfp, hlr]
    | none =>
      simp [monadM, M.mbind, M.mpure, create_material_expression, set_editor_property,
        connect_material_property, unreal_log, unreal_log_warning, emit,
        hb.create_ok, hb.node_setprop_ok, hb.connect_ok, load_texture_asset_run, hfp, hlr]

theorem process_normal_run (h : Host) (hb : Benign h) (material shader_name : String)
    (s : Trace) :
    process_normal h material shader_name s =
      (.ok (), ⟨s.events ++ normal_events h material shader_name s.nextId,
        s.nextId + normal_delta h shader_name⟩) := by
  unfold process_normal normal_events normal_delta
  cases hfp : strOptFalsy (find_normal_texture h.env shader_name) with
  | true =>
    simp [monadM, M.mbind, M.mpure, unreal_log_warning, emit, hfp]
  | false =>
    cases hlr : load_result h (find_normal_texture h.env shader_name) with
    | some ta =>
      simp [monadM, M.mbind, M.mpure, create_material_expression, set_editor_property,
        connect_material_property, unreal_log, unreal_log_warning, emit,
        hb.create_ok, hb.node_setprop_ok, hb.connect_ok, load_texture_asset_run, hfp, hlr]
    | none =>
      simp [monadM, M.mbind, M.mpure, create_material_expression, set_editor_property,
        connect_material_property, unreal_log, unreal_log_warning, emit,
        hb.create_ok, hb.node_setprop_ok, hb.connect_ok, load_texture_asset_run, hfp, hlr]

theorem process_orm_run (h : Host) (hb : Benign h) (material shader_name : String)
    (s : Trace) :
    process_orm h material shader_name s =
      (.ok (), ⟨s.events ++ orm_events h material shader_name s.nextId,
        s.nextId + orm_delta h shader_name⟩) := by
  unfold process_orm orm_events orm_delta
  cases hfp : strOptFalsy (find_orm_texture h.env shader_name) with
  | true =>
    simp [monadM, M.mbind, M.mpure, unreal_log_warning, emit, hfp]
  | false =>
    cases hlr : load_result h (find_orm_texture h.env shader_name) with
    | some ta =>
      simp [monadM, M.mbind, M.mpure, create_material_expression, set_editor_property,
        connect_material_property, unreal_log, unreal_log_warning, emit,
        hb.create_ok, hb.node_setprop_ok, hb.connect_ok, load_texture_asset_run,
        configure_texture_settings_run, hfp, hlr]
    | none =>
      simp [monadM, M.mbind, M.mpure, create_material_expression, set_editor_property,
        connect_material_property, unreal_log, unreal_log_warning, emit,
        hb.create_ok, hb.node_setprop_ok, hb.connect_ok, load_texture_asset_run, hfp, hlr]

theorem process_material_run (h : Host) (hb : Benign h) (material : String) (s : Trace) :
    process_material h material s =
      (.ok (), ⟨s.events ++ material_events h material s.nextId,
        s.nextId + material_delta h material⟩) := by
  unfold process_material material_events material_delta
  simp [monadM, M.mbind, M.mpure, unreal_log, recompile_material, emit,
    hb.recompile_ok, process_basecolor_run h hb, process_normal_run h hb,
    process_orm_run h hb, Nat.add_assoc]

theorem process_assets_run (h : Host) (hb : Benign h) (l : List Asset) (s : Trace) :
    process_assets h l s =
      (.ok (material_names l, has_material l),
        ⟨s.events ++ assets_events h l s.nextId, s.nextId + assets_delta h l⟩) := by
  induction l generalizing s with
  | nil => simp [process_assets, material_names, has_material, assets_events, assets_delta,
      monadM, M.mpure]
  | cons a rest ih =>
    cases a with
    | material m =>
      simp [process_assets, material_names, has_material, assets_events, assets_delta,
        monadM, M.mbind, M.mpure, process_material_run h hb, ih, Nat.add_assoc]
    | other nm =>
      simp [process_assets, material_names, has_material, assets_events, assets_delta,
        monadM, M.mbind, M.mpure, ih]

/-- Under a benign host, `add_texture_to_selected_material` returns
normally with `run_result` and emits `run_events`. -/
theorem add_texture_run (h : Host) (hb : Benign h) :
    ∃ k, add_texture_to_selected_material h ⟨[], 0⟩ = (.ok (run_result h), ⟨run_events h, k⟩) := by
  unfold add_texture_to_selected_material run_events run_result
  cases hsel : h.selected_assets.isEmpty with
  | true =>
    exact ⟨0, by simp [monadM, M.mbind, M.mpure, unreal_log_error, emit, hsel]⟩
  | false =>
    cases hhm : has_material h.selected_assets with
    | true =>
      exact ⟨assets_delta h h.selected_assets, by
        simp [monadM, M.mbind, M.mpure, unreal_log, unreal_log_error, emit, hsel,
          process_assets_run h hb, hhm]⟩
    | false =>
      exact ⟨assets_delta h h.selected_assets, by
        simp [monadM, M.mbind, M.mpure, unreal_log, unreal_log_error, emit, hsel,
          process_assets_run h hb, hhm]⟩


/-! ### Helper lemmas for the claims -/

lemma slash_append_not_falsy (a b : String) :
    strOptFalsy (some (a ++ "/" ++ b)) = false := by
  cases a with
  | mk da =>
    cases da with
    | nil => rfl
    | cons c cs => rfl

lemma game_append_not_falsy (x : String) : strOptFalsy (some ("/Game/" ++ x)) = false := rfl

/-- `find_texture_by_type` never returns `some ""`: its Python truthiness
agrees with `isNone`. -/
lemma find_texture_by_type_falsy (env : FTEnv) (sh tt : String) :
    strOptFalsy (find_texture_by_type env sh tt) = (find_texture_by_type env sh tt).isNone := by
  unfold find_texture_by_type
  cases hf : env.registry_textures.find? (registry_match (strip_sg_suffix sh) tt) with
  | some td => simp [hf, slash_append_not_falsy]
  | none =>
    unfold filesystem_search
    cases hw : walk_tree (strip_sg_suffix sh) tt env.content_dir env.content_tree with
    | nil => simp [hf, hw, strOptFalsy]
    | cons m0 ms => simp [hf, hw, game_append_not_falsy]

lemma strOptFalsy_some_ne (p : String) (h : p ≠ "") : strOptFalsy (some p) = false := by
  cases p with
  | mk pdata =>
    cases pdata with
    | nil => exact absurd rfl h
    | cons c cs => rfl

lemma success_msg_ne_marker (p : String) :
    (("Successfully loaded texture using alternative method: " ++ p) ==
      "Trying alternative texture loading approach...") = false := by
  cases p with
  | mk pd =>
    rw [beq_eq_false_iff_ne]
    intro hcontra
    have h1 : (some 'S' : Option Char) = some 'T' :=
      congrArg (fun s : String => s.data.head?) hcontra
    simp at h1

lemma prune_games_name (t : FSTree) : (prune_games t).name = t.name := by
  cases t
  simp [prune_games]

lemma walk_subdirs_cons_games (sh tt parent : String) (t : FSTree) (ts : List FSTree)
    (hn : t.name = "Games") :
    walk_subdirs sh tt parent false (t :: ts) = walk_subdirs sh tt parent true ts := by
  simp [walk_subdirs, hn]

lemma walk_subdirs_cons_other (sh tt parent : String) (b : Bool) (t : FSTree) (ts : List FSTree)
    (hn : ¬ t.name = "Games") :
    walk_subdirs sh tt parent b (t :: ts) =
      walk_tree sh tt (pjoin parent t.name) t ++ walk_subdirs sh tt parent b ts := by
  cases b <;> simp [walk_subdirs, hn]

/-! ### Claim theorems -/

/-- C6: when the asset-registry scan finds a matching `Texture2D`, the
registry entry's `package_path`-plus-name is returned, and the result does
not depend on the content directory or the filesystem tree at all: the
filesystem fallback is reached only when the registry finds no match. -/
theorem C6_registry_short_circuit (env : FTEnv) (sh tt : String) (td : AssetData)
    (hfind : env.registry_textures.find? (registry_match (strip_sg_suffix sh) tt) = some td) :
    find_texture_by_type env sh tt = some (td.package_path ++ "/" ++ td.asset_name) ∧
    ∀ (cd : String) (t : FSTree),
      find_texture_by_type ⟨env.registry_textures, cd, t⟩ sh tt =
        some (td.package_path ++ "/" ++ td.asset_name) := by
  constructor
  · unfold find_texture_by_type
    simp [hfind]
  · intro cd t
    unfold find_texture_by_type
    simp [hfind]

theorem C6_witness :
    find_texture_by_type ⟨[rockBC], "/C/Content/", gamesTree⟩ "Rock" "BaseColor" =
      some (rockBC.package_path ++ "/" ++ rockBC.asset_name) :=
  (C6_registry_short_circuit ⟨[rockBC], "/C/Content/", gamesTree⟩ "Rock" "BaseColor" rockBC
    (by rfl)).1

/-- C7: `find_orm_texture` returns the first non-`None` result of the
searches for `OcclusionRoughnessMetallic`, then `ORM`, then
`AmbientOcclusion`, and `None` when all three fail. -/
theorem C7_orm_search_order (env : FTEnv) (shader_name : String) :
    find_orm_texture env shader_name =
      ((find_texture_by_type env shader_name "OcclusionRoughnessMetallic").orElse fun _ =>
        ((find_texture_by_type env shader_name "ORM").orElse fun _ =>
          find_texture_by_type env shader_name "AmbientOcclusion")) := by
  have f1 := find_texture_by_type_falsy env shader_name "OcclusionRoughnessMetallic"
  have f2 := find_texture_by_type_falsy env shader_name "ORM"
  unfold find_orm_texture
  cases h1 : find_texture_by_type env shader_name "OcclusionRoughnessMetallic" with
  | some s1 =>
    rw [h1] at f1
    simp [f1, Option.orElse]
  | none =>
    rw [h1] at f1
    cases h2 : find_texture_by_type env shader_name "ORM" with
    | some s2 =>
      rw [h2] at f2
      simp [f1, f2, Option.orElse]
    | none =>
      rw [h2] at f2
      simp [f1, f2, Option.orElse]

/-- C2 counterexample: for the material name `M_SGfoo` the claim says the
shader name is the name unchanged (no `_SG` suffix), yet the code searches
with the name truncated at the inner `_SG`: it finds an asset
`M_SG_BaseColor` that does not start with the claimed prefix. -/
theorem C2_counterexample :
    find_texture_by_type envC2 (shader_name_of_material "M_SGfoo") "BaseColor" =
      some "/Game/Tex/M_SG_BaseColor" ∧
    spec_shader_name "M_SGfoo" = "M_SGfoo" ∧
    pyStartsWith (pyLower "M_SG_BaseColor")
      (search_key (spec_shader_name "M_SGfoo") "BaseColor") = false :=
  ⟨rfl, rfl, rfl⟩

/-- C2 (amended): the name base actually used for registry matching is
`amended_base`: the material name truncated at the first case-sensitive
occurrence of `_SG`, then stripped of one case-insensitive trailing
`_SG`.  A single-entry registry matches exactly when the asset name
starts with the key built from that base. -/
theorem C2_amended_search_base (m tt cd : String) (a : AssetData) :
    find_texture_by_type ⟨[a], cd, emptyTree⟩ (shader_name_of_material m) tt =
      (if pyStartsWith (pyLower a.asset_name) (search_key (amended_base m) tt) then
        some (a.package_path ++ "/" ++ a.asset_name)
      else none) := by
  have hb : amended_base m = strip_sg_suffix (shader_name_of_material m) := rfl
  unfold find_texture_by_type
  rw [hb]
  cases hp : pyStartsWith (pyLower a.asset_name)
      (search_key (strip_sg_suffix (shader_name_of_material m)) tt) with
  | true => simp [List.find?, registry_match, hp]
  | false =>
    simp [List.find?, registry_match, hp, filesystem_search, walk_tree, walk_subdirs, emptyTree]

/-- C10: with `is_orm=False` and a non-`None` texture,
`configure_texture_settings` returns `True` and performs no host effect at
all: no property is set and the trace is unchanged.  Only the
`is_orm=True` path touches the `srgb` property. -/
theorem C10_non_orm_configure_noop (h : Host) (t : TextureAsset) (s : Trace) :
    configure_texture_settings h (some t) false s = (.ok true, s) := rfl

/-- C9: pruning `"Games"` from the yielded `dirs` list makes the walk
behave exactly as if every `Games` subdirectory (and everything below it)
were absent from the tree: no file under a `Games` directory is ever
considered.  Well-formedness asks that no directory has two `Games`
subdirectories, which holds on a real filesystem. -/
theorem C9_games_pruned (sh tt : String) :
    ∀ t : FSTree, tree_wf t = true →
      ∀ root, walk_tree sh tt root t = walk_tree sh tt root (prune_games t) := by
  refine tree_rec_aux
    (Q := fun l => forest_wf l = true →
      (((l.map FSTree.name).count "Games" ≤ 1) →
        ∀ parent, walk_subdirs sh tt parent false l =
          walk_subdirs sh tt parent false (prune_games_forest l)) ∧
      (((l.map FSTree.name).count "Games" = 0) →
        ∀ parent b b2, walk_subdirs sh tt parent b l =
          walk_subdirs sh tt parent b2 (prune_games_forest l)))
    ?_ ?_ ?_
  · -- node case
    intro n fs subs ih hwf root
    have hwf2 : ((subs.map FSTree.name).count "Games" ≤ 1) ∧ forest_wf subs = true := by
      simpa [tree_wf] using hwf
    simp only [walk_tree, prune_games]
    rw [(ih hwf2.2).1 hwf2.1 root]
  · -- nil case
    intro _
    exact ⟨fun _ _ => rfl, fun _ _ _ _ => rfl⟩
  · -- cons case
    intro t ts iht ihts hwf
    have hwf2 : tree_wf t = true ∧ forest_wf ts = true := by simpa [forest_wf] using hwf
    have hname := prune_games_name t
    constructor
    · intro hcount parent
      by_cases hn : t.name = "Games"
      · have hcount0 : ((ts.map FSTree.name).count "Games") = 0 := by
          simp [List.count_cons, hn] at hcount
          omega
        rw [walk_subdirs_cons_games sh tt parent t ts hn]
        rw [show prune_games_forest (t :: ts) = prune_games_forest ts by
          simp [prune_games_forest, hn]]
        exact (ihts hwf2.2).2 hcount0 parent true false
      · have hcount2 : ((ts.map FSTree.name).count "Games" ≤ 1) := by
          simp only [List.map_cons, List.count_cons] at hcount
          omega
        rw [walk_subdirs_cons_other sh tt parent false t ts hn]
        rw [show prune_games_forest (t :: ts) = prune_games t :: prune_games_forest ts by
          simp [prune_games_forest, hn]]
        rw [walk_subdirs_cons_other sh tt parent false (prune_games t) (prune_games_forest ts)
          (by rw [hname]; exact hn)]
        rw [hname, iht hwf2.1, (ihts hwf2.2).1 hcount2 parent]
    · intro hcount parent b b2
      have hn : ¬ t.name = "Games" := by
        intro he
        simp [List.count_cons, he] at hcount
      have hcount0 : ((ts.map FSTree.name).count "Games") = 0 := by
        simp only [List.map_cons, List.count_cons] at hcount
        omega
      rw [walk_subdirs_cons_other sh tt parent b t ts hn]
      rw [show prune_games_forest (t :: ts) = prune_games t :: prune_games_forest ts by
        simp [prune_games_forest, hn]]
      rw [walk_subdirs_cons_other sh tt parent b2 (prune_games t) (prune_games_forest ts)
        (by rw [hname]; exact hn)]
      rw [hname, iht hwf2.1, (ihts hwf2.2).2 hcount0 parent b b2]

theorem C9_witness :
    walk_tree "rock" "BaseColor" "/C/Content/" gamesTree =
      walk_tree "rock" "BaseColor" "/C/Content/" (prune_games gamesTree) :=
  C9_games_pruned "rock" "BaseColor" gamesTree (by rfl) "/C/Content/"

/-- C5: when the first `load_asset` raises, the exception is caught and
logged, the alternative-loading block runs exactly once, at most one
further load attempt is made, a failing or raising fallback yields `None`,
and no exception propagates out of `load_texture_asset`. -/
theorem C5_load_exception_fallback (h : Host) (path e : String) (hne : path ≠ "")
    (hraise : h.load_behavior path = .raises e) (s : Trace) :
    load_texture_asset h (some path) s =
      (.ok (load_result h (some path)),
        { s with events := s.events ++ load_events h (some path) }) ∧
    Event.log .error ("Error loading texture: " ++ e) ∈ load_events h (some path) ∧
    count_fallback_markers (load_events h (some path)) = 1 ∧
    count_load_attempts (load_events h (some path)) ≤ 2 ∧
    (fallback_fails h path = true → load_result h (some path) = none) := by
  have hfal := strOptFalsy_some_ne path hne
  refine ⟨load_texture_asset_run h (some path) s, ?_⟩
  cases hrb : h.reg_lookup_behavior path with
  | raises e2 =>
    refine ⟨?_, ?_, ?_, ?_⟩ <;>
      simp [load_events, load_result, fallback_fails, count_fallback_markers,
        count_load_attempts, hfal, hraise, hrb, List.filter, success_msg_ne_marker]
  | returns ad =>
    cases ad with
    | none =>
      refine ⟨?_, ?_, ?_, ?_⟩ <;>
        simp [load_events, load_result, fallback_fails, count_fallback_markers,
          count_load_attempts, hfal, hraise, hrb, List.filter, success_msg_ne_marker]
    | some a =>
      cases hlb2 : h.load_behavior a.package_name with
      | raises e3 =>
        refine ⟨?_, ?_, ?_, ?_⟩ <;>
          simp [load_events, load_result, fallback_fails, count_fallback_markers,
            count_load_attempts, hfal, hraise, hrb, hlb2, List.filter, success_msg_ne_marker]
      | returns r2 =>
        cases r2 with
        | none =>
          refine ⟨?_, ?_, ?_, ?_⟩ <;>
            simp [load_events, load_result, fallback_fails, count_fallback_markers,
              count_load_attempts, hfal, hraise, hrb, hlb2, List.filter, success_msg_ne_marker]
        | some t2 =>
          refine ⟨?_, ?_, ?_, ?_⟩ <;>
            simp [load_events, load_result, fallback_fails, count_fallback_markers,
              count_load_attempts, hfal, hraise, hrb, hlb2, List.filter, success_msg_ne_marker]

theorem C5_witness :
    count_fallback_markers
      (load_events host_load_raises (some "/Game/Tex/rock_sg_basecolor")) = 1 :=
  (C5_load_exception_fallback host_load_raises "/Game/Tex/rock_sg_basecolor" "io error"
    (by decide) rfl ⟨[], 0⟩).2.2.1

/-- C1 counterexample: on a host whose `create_material_expression`
raises, the exception propagates out of `add_texture_to_selected_material`
(there is no `try`/`except` in the entry point). -/
theorem C1_counterexample :
    run0_value host_create_raises = .error "boom" := rfl

/-- C1 (amended): no exception propagates out of
`add_texture_to_selected_material` provided the host calls the script does
not guard (expression creation, node property sets, channel connection,
recompilation) do not raise; exceptions of `load_asset`, of the registry
lookup and of the sRGB property write may still occur arbitrarily and are
caught inside `load_texture_asset` and `configure_texture_settings`. -/
theorem C1_amended_no_exception (h : Host) (hb : Benign h) :
    ∃ v, run0_value h = Except.ok v := by
  obtain ⟨k, hk⟩ := add_texture_run h hb
  refine ⟨run_result h, ?_⟩
  unfold run0_value
  rw [hk]

theorem C1_witness : ∃ v, run0_value host_benign = Except.ok v :=
  C1_amended_no_exception host_benign
    ⟨fun _ _ => rfl, fun _ _ _ => rfl, fun _ _ _ => rfl, fun _ => rfl⟩

/-- C3 counterexample: with a nonempty selection containing a material,
the function can still fail to return the processed-materials list: a
raising host call makes the exception propagate instead. -/
theorem C3_counterexample :
    host_create_raises.selected_assets.isEmpty = false ∧
    has_material host_create_raises.selected_assets = true ∧
    run0_value host_create_raises = .error "boom" := ⟨rfl, rfl, rfl⟩

/-- C3 (amended): provided no uncaught host call raises, the run returns
`None` exactly when the selection is empty or contains no material, an
error is logged in precisely those two situations, and otherwise the
processed-materials list is returned. -/
theorem C3_amended_null_return_cases (h : Host) (hb : Benign h) :
    (run0_value h = .ok none ↔
      (h.selected_assets.isEmpty = true ∨ has_material h.selected_assets = false)) ∧
    (h.selected_assets.isEmpty = true →
      Event.log .error "No assets selected in the content browser" ∈ run0_events h) ∧
    (h.selected_assets.isEmpty = false → has_material h.selected_assets = false →
      Event.log .error "No materials found in the selection" ∈ run0_events h) ∧
    (h.selected_assets.isEmpty = false → has_material h.selected_assets = true →
      run0_value h = .ok (some (material_names h.selected_assets))) := by
  obtain ⟨k, hk⟩ := add_texture_run h hb
  have hv : run0_value h = .ok (run_result h) := by
    unfold run0_value
    rw [hk]
  have he : run0_events h = run_events h := by
    unfold run0_events
    rw [hk]
  cases hsel : h.selected_assets.isEmpty with
  | true =>
    refine ⟨?_, ?_, ?_, ?_⟩
    · simp [hv, run_result, hsel]
    · intro _
      simp [he, run_events, hsel]
    · intro hcontra
      simp at hcontra
    · intro hcontra
      simp at hcontra
  | false =>
    cases hhm : has_material h.selected_assets with
    | false =>
      refine ⟨?_, ?_, ?_, ?_⟩
      · simp [hv, run_result, hsel, hhm]
      · intro hcontra
        simp at hcontra
      · intro _ _
        simp [he, run_events, hsel, hhm]
      · intro _ hcontra
        simp [hhm] at hcontra
    | true =>
      refine ⟨?_, ?_, ?_, ?_⟩
      · simp [hv, run_result, hsel, hhm]
      · intro hcontra
        simp at hcontra
      · intro _ hcontra
        simp [hhm] at hcontra
      · intro _ _
        simp [hv, run_result, hsel, hhm]

theorem C3_witness :
    run0_value host_benign = .ok (some ["Rock"]) :=
  (C3_amended_null_return_cases host_benign
    ⟨fun _ _ => rfl, fun _ _ _ => rfl, fun _ _ _ => rfl, fun _ => rfl⟩).2.2.2 rfl rfl

lemma creates_for_append (m : String) (a b : List Event) :
    creates_for m (a ++ b) = creates_for m a + creates_for m b := by
  simp [creates_for, List.filter_append]

lemma load_events_shape (h : Host) (tp : Option String) :
    ∀ ev ∈ load_events h tp,
      (∃ p, ev = Event.loadAsset p) ∨ (∃ lvl msg, ev = Event.log lvl msg) := by
  intro ev hev
  cases hfp : strOptFalsy tp with
  | true => simp [load_events, hfp] at hev
  | false =>
    cases hlb : h.load_behavior (tp.getD "") with
    | returns r =>
      cases r <;> simp [load_events, hfp, hlb] at hev <;> aesop
    | raises e =>
      cases hrb : h.reg_lookup_behavior (tp.getD "") with
      | raises e2 =>
        simp [load_events, hfp, hlb, hrb] at hev
        aesop
      | returns ad =>
        cases ad with
        | none =>
          simp [load_events, hfp, hlb, hrb] at hev
          aesop
        | some a =>
          cases hlb2 : h.load_behavior a.package_name with
          | raises e3 =>
            simp [load_events, hfp, hlb, hrb, hlb2] at hev
            aesop
          | returns r2 =>
            cases r2 <;> simp [load_events, hfp, hlb, hrb, hlb2] at hev <;> aesop

lemma configure_events_shape (h : Host) (ta : TextureAsset) :
    ∀ ev ∈ configure_events h ta,
      (∃ t p v, ev = Event.setProp (.tex t) p v) ∨ (∃ lvl msg, ev = Event.log lvl msg) := by
  intro ev hev
  unfold configure_events at hev
  cases hsr : srgb_raises h ta with
  | some e =>
    rw [hsr] at hev
    simp_all
  | none =>
    rw [hsr] at hev
    simp_all
    aesop

lemma creates_for_load_events (m : String) (h : Host) (tp : Option String) :
    creates_for m (load_events h tp) = 0 := by
  rw [creates_for, List.length_eq_zero]
  rw [List.filter_eq_nil_iff]
  intro ev hev
  rcases load_events_shape h tp ev hev with ⟨p, rfl⟩ | ⟨lvl, msg, rfl⟩ <;> simp

lemma creates_for_configure_events (m : String) (h : Host) (ta : TextureAsset) :
    creates_for m (configure_events h ta) = 0 := by
  rw [creates_for, List.length_eq_zero]
  rw [List.filter_eq_nil_iff]
  intro ev hev
  rcases configure_events_shape h ta ev hev with ⟨t, p, v, rfl⟩ | ⟨lvl, msg, rfl⟩ <;> simp

lemma connect_not_mem_load_events (h : Host) (tp : Option String) (n : NodeRef)
    (o : String) (mp : MatProp) : Event.connect n o mp ∉ load_events h tp := by
  intro hev
  rcases load_events_shape h tp _ hev with ⟨p, hp⟩ | ⟨lvl, msg, hp⟩ <;> simp at hp

lemma connect_not_mem_configure_events (h : Host) (ta : TextureAsset) (n : NodeRef)
    (o : String) (mp : MatProp) : Event.connect n o mp ∉ configure_events h ta := by
  intro hev
  rcases configure_events_shape h ta _ hev with ⟨t, p, v, hp⟩ | ⟨lvl, msg, hp⟩ <;> simp at hp



lemma filter_creates_load_events (m : String) (h : Host) (tp : Option String) :
    (load_events h tp).filter (fun ev => match ev with
      | Event.createExpression n => n.material == m
      | _ => false) = [] := by
  rw [List.filter_eq_nil_iff]
  intro ev hev
  rcases load_events_shape h tp ev hev with ⟨p, rfl⟩ | ⟨lvl, msg, rfl⟩ <;> simp

lemma creates_for_bc_events (h : Host) (m m2 sh : String) (k : Nat) :
    creates_for m2 (bc_events h m sh k) = if m2 = m then bc_delta h sh else 0 := by
  unfold bc_events bc_delta
  cases hfp : strOptFalsy (find_basecolor_texture h.env sh) with
  | true => simp [creates_for, hfp]
  | false =>
    cases hlr : load_result h (find_basecolor_texture h.env sh) with
    | some ta =>
      by_cases hm : m2 = m
      · subst hm
        simp [creates_for, hfp, hlr, List.filter_append, filter_creates_load_events]
      · have hb : (m == m2) = false := by
          rw [beq_eq_false_iff_ne]
          exact fun hh => hm hh.symm
        simp [creates_for, hfp, hlr, List.filter_append, filter_creates_load_events, hm, hb]
    | none =>
      by_cases hm : m2 = m
      · subst hm
        simp [creates_for, hfp, hlr, List.filter_append, filter_creates_load_events]
      · have hb : (m == m2) = false := by
          rw [beq_eq_false_iff_ne]
          exact fun hh => hm hh.symm
        simp [creates_for, hfp, hlr, List.filter_append, filter_creates_load_events, hm, hb]

lemma connect_mem_bc_events (h : Host) (m sh : String) (k : Nat) (n : NodeRef) (o : String)
    (mp : MatProp) (hmem : Event.connect n o mp ∈ bc_events h m sh k) :
    n.material = m ∧ mp = .MP_BASE_COLOR ∧
      strOptFalsy (find_basecolor_texture h.env sh) = false := by
  unfold bc_events at hmem
  cases hfp : strOptFalsy (find_basecolor_texture h.env sh) with
  | true => simp [hfp] at hmem
  | false =>
    cases hlr : load_result h (find_basecolor_texture h.env sh) with
    | some ta =>
      simp [hfp, hlr, connect_not_mem_load_events] at hmem
      obtain ⟨hn, ho, hmp⟩ := hmem
      subst hn
      subst hmp
      exact ⟨rfl, rfl, rfl⟩
    | none => simp [hfp, hlr, connect_not_mem_load_events] at hmem

lemma warning_mem_bc_events (h : Host) (m sh : String) (k : Nat)
    (hfp : strOptFalsy (find_basecolor_texture h.env sh) = true) :
    Event.log .warning ("No texture with " ++ sh ++ " and BaseColor found")
      ∈ bc_events h m sh k := by
  simp [bc_events, hfp]



lemma find_orm_texture_falsy (env : FTEnv) (sh : String) :
    strOptFalsy (find_orm_texture env sh) = (find_orm_texture env sh).isNone := by
  have f1 := find_texture_by_type_falsy env sh "OcclusionRoughnessMetallic"
  have f2 := find_texture_by_type_falsy env sh "ORM"
  have f3 := find_texture_by_type_falsy env sh "AmbientOcclusion"
  unfold find_orm_texture
  cases h1 : find_texture_by_type env sh "OcclusionRoughnessMetallic" with
  | some s1 =>
    rw [h1] at f1
    simp [f1]
  | none =>
    rw [h1] at f1
    cases h2 : find_texture_by_type env sh "ORM" with
    | some s2 =>
      rw [h2] at f2
      simp [f1, f2]
    | none =>
      rw [h2] at f2
      cases h3 : find_texture_by_type env sh "AmbientOcclusion" with
      | some s3 =>
        rw [h3] at f3
        simp [f1, f2, f3]
      | none =>
        rw [h3] at f3
        simp [f1, f2, f3]

lemma find_orm_not_falsy (env : FTEnv) (sh p : String)
    (hp : find_orm_texture env sh = some p) : strOptFalsy (some p) = false := by
  have hf := find_orm_texture_falsy env sh
  rw [hp] at hf
  simpa using hf

lemma creates_for_normal_events (h : Host) (m m2 sh : String) (k : Nat) :
    creates_for m2 (normal_events h m sh k) = if m2 = m then normal_delta h sh else 0 := by
  unfold normal_events normal_delta
  cases hfp : strOptFalsy (find_normal_texture h.env sh) with
  | true => simp [creates_for, hfp]
  | false =>
    cases hlr : load_result h (find_normal_texture h.env sh) with
    | some ta =>
      by_cases hm : m2 = m
      · subst hm
        simp [creates_for, hfp, hlr, List.filter_append, filter_creates_load_events]
      · have hb : (m == m2) = false := by
          rw [beq_eq_false_iff_ne]
          exact fun hh => hm hh.symm
        simp [creates_for, hfp, hlr, List.filter_append, filter_creates_load_events, hm, hb]
    | none =>
      by_cases hm : m2 = m
      · subst hm
        simp [creates_for, hfp, hlr, List.filter_append, filter_creates_load_events]
      · have hb : (m == m2) = false := by
          rw [beq_eq_false_iff_ne]
          exact fun hh => hm hh.symm
        simp [creates_for, hfp, hlr, List.filter_append, filter_creates_load_events, hm, hb]

lemma connect_mem_normal_events (h : Host) (m sh : String) (k : Nat) (n : NodeRef) (o : String)
    (mp : MatProp) (hmem : Event.connect n o mp ∈ normal_events h m sh k) :
    n.material = m ∧ mp = .MP_NORMAL ∧
      strOptFalsy (find_normal_texture h.env sh) = false := by
  unfold normal_events at hmem
  cases hfp : strOptFalsy (find_normal_texture h.env sh) with
  | true => simp [hfp] at hmem
  | false =>
    cases hlr : load_result h (find_normal_texture h.env sh) with
    | some ta =>
      simp [hfp, hlr, connect_not_mem_load_events] at hmem
      obtain ⟨hn, ho, hmp⟩ := hmem
      subst hn
      subst hmp
      exact ⟨rfl, rfl, rfl⟩
    | none => simp [hfp, hlr, connect_not_mem_load_events] at hmem

lemma warning_mem_normal_events (h : Host) (m sh : String) (k : Nat)
    (hfp : strOptFalsy (find_normal_texture h.env sh) = true) :
    Event.log .warning ("No texture with " ++ sh ++ " and Normal found")
      ∈ normal_events h m sh k := by
  simp [normal_events, hfp]

lemma filter_creates_configure_events (m : String) (h : Host) (ta : TextureAsset) :
    (configure_events h ta).filter (fun ev => match ev with
      | Event.createExpression n => n.material == m
      | _ => false) = [] := by
  rw [List.filter_eq_nil_iff]
  intro ev hev
  rcases configure_events_shape h ta ev hev with ⟨t, p, v, rfl⟩ | ⟨lvl, msg, rfl⟩ <;> simp

lemma creates_for_orm_events (h : Host) (m m2 sh : String) (k : Nat) :
    creates_for m2 (orm_events h m sh k) = if m2 = m then orm_delta h sh else 0 := by
  unfold orm_events orm_delta
  cases hfp : strOptFalsy (find_orm_texture h.env sh) with
  | true => simp [creates_for, hfp]
  | false =>
    cases hlr : load_result h (find_orm_texture h.env sh) with
    | some ta =>
      by_cases hm : m2 = m
      · subst hm
        simp [creates_for, hfp, hlr, List.filter_append, filter_creates_load_events,
          filter_creates_configure_events]
      · have hb : (m == m2) = false := by
          rw [beq_eq_false_iff_ne]
          exact fun hh => hm hh.symm
        simp [creates_for, hfp, hlr, List.filter_append, filter_creates_load_events,
          filter_creates_configure_events, hm, hb]
    | none =>
      by_cases hm : m2 = m
      · subst hm
        simp [creates_for, hfp, hlr, List.filter_append, filter_creates_load_events]
      · have hb : (m == m2) = false := by
          rw [beq_eq_false_iff_ne]
          exact fun hh => hm hh.symm
        simp [creates_for, hfp, hlr, List.filter_append, filter_creates_load_events, hm, hb]

lemma connect_mem_orm_events (h : Host) (m sh : String) (k : Nat) (n : NodeRef) (o : String)
    (mp : MatProp) (hmem : Event.connect n o mp ∈ orm_events h m sh k) :
    n.material = m ∧
      (mp = .MP_AMBIENT_OCCLUSION ∨ mp = .MP_ROUGHNESS ∨ mp = .MP_METALLIC) ∧
      strOptFalsy (find_orm_texture h.env sh) = false := by
  unfold orm_events at hmem
  cases hfp : strOptFalsy (find_orm_texture h.env sh) with
  | true => simp [hfp] at hmem
  | false =>
    cases hlr : load_result h (find_orm_texture h.env sh) with
    | some ta =>
      simp [hfp, hlr, connect_not_mem_load_events, connect_not_mem_configure_events] at hmem
      rcases hmem with ⟨hn, ho, hmp⟩ | ⟨hn, ho, hmp⟩ | ⟨hn, ho, hmp⟩ <;>
        (subst hn; subst hmp; exact ⟨rfl, by simp, rfl⟩)
    | none => simp [hfp, hlr, connect_not_mem_load_events] at hmem

lemma warning_mem_orm_events (h : Host) (m sh : String) (k : Nat)
    (hfp : strOptFalsy (find_orm_texture h.env sh) = true) :
    Event.log .warning
      ("No texture with " ++ sh ++ " and ORM/OcclusionRoughnessMetallic/AmbientOcclusion found")
      ∈ orm_events h m sh k := by
  simp [orm_events, hfp]

lemma orm_wiring_mem_orm_events (h : Host) (m sh p : String) (ta : TextureAsset) (k : Nat)
    (hfind : find_orm_texture h.env sh = some p)
    (hload : load_result h (some p) = some ta)
    (hsrgb : srgb_raises h ta = none) :
    Event.setProp (.tex ta.tname) "srgb" (.pbool false) ∈ orm_events h m sh k ∧
    Event.connect ⟨m, k⟩ "R" .MP_AMBIENT_OCCLUSION ∈ orm_events h m sh k ∧
    Event.connect ⟨m, k⟩ "G" .MP_ROUGHNESS ∈ orm_events h m sh k ∧
    Event.connect ⟨m, k⟩ "B" .MP_METALLIC ∈ orm_events h m sh k := by
  have hfp : strOptFalsy (find_orm_texture h.env sh) = false := by
    rw [hfind]
    exact find_orm_not_falsy h.env sh p hfind
  unfold orm_events
  rw [hfind] at hfp ⊢
  simp [hfp, hfind, hload, configure_events, hsrgb]



lemma creates_for_nil (m : String) : creates_for m [] = 0 := rfl

lemma creates_for_log (m : String) (lvl : LogLevel) (msg : String) (rest : List Event) :
    creates_for m (Event.log lvl msg :: rest) = creates_for m rest := by
  simp [creates_for, List.filter]

lemma creates_for_recompile (m m2 : String) (rest : List Event) :
    creates_for m (Event.recompile m2 :: rest) = creates_for m rest := by
  simp [creates_for, List.filter]

lemma creates_for_material_events (h : Host) (m m2 : String) (k : Nat) :
    creates_for m2 (material_events h m k) = if m2 = m then material_delta h m else 0 := by
  unfold material_events material_delta
  simp only [creates_for_append, creates_for_bc_events, creates_for_normal_events,
    creates_for_orm_events, creates_for_log, creates_for_recompile, creates_for_nil]
  by_cases hm : m2 = m
  · subst hm
    simp
  · simp [hm]

lemma connect_mem_material_events (h : Host) (m : String) (k : Nat) (n : NodeRef) (o : String)
    (mp : MatProp) (hmem : Event.connect n o mp ∈ material_events h m k) :
    n.material = m ∧ connect_requires h m mp := by
  unfold material_events at hmem
  simp [List.mem_append] at hmem
  rcases hmem with hbc | hnorm | horm
  · obtain ⟨hmat, hmp, hcond⟩ := connect_mem_bc_events h m _ _ n o mp hbc
    subst hmp
    exact ⟨hmat, hcond⟩
  · obtain ⟨hmat, hmp, hcond⟩ := connect_mem_normal_events h m _ _ n o mp hnorm
    subst hmp
    exact ⟨hmat, hcond⟩
  · obtain ⟨hmat, hmp, hcond⟩ := connect_mem_orm_events h m _ _ n o mp horm
    refine ⟨hmat, ?_⟩
    rcases hmp with rfl | rfl | rfl <;> exact hcond

lemma recompile_mem_material_events (h : Host) (m : String) (k : Nat) :
    Event.recompile m ∈ material_events h m k := by
  simp [material_events]

lemma bc_warning_mem_material_events (h : Host) (m : String) (k : Nat)
    (hfp : strOptFalsy (find_basecolor_texture h.env (shader_name_of_material m)) = true) :
    Event.log .warning
        ("No texture with " ++ shader_name_of_material m ++ " and BaseColor found")
      ∈ material_events h m k := by
  unfold material_events
  exact List.mem_append_left _ (List.mem_append_left _ (List.mem_append_left _
    (List.mem_append_right _ (warning_mem_bc_events h m _ k hfp))))

lemma normal_warning_mem_material_events (h : Host) (m : String) (k : Nat)
    (hfp : strOptFalsy (find_normal_texture h.env (shader_name_of_material m)) = true) :
    Event.log .warning
        ("No texture with " ++ shader_name_of_material m ++ " and Normal found")
      ∈ material_events h m k := by
  unfold material_events
  exact List.mem_append_left _ (List.mem_append_left _
    (List.mem_append_right _ (warning_mem_normal_events h m _ _ hfp)))

lemma orm_warning_mem_material_events (h : Host) (m : String) (k : Nat)
    (hfp : strOptFalsy (find_orm_texture h.env (shader_name_of_material m)) = true) :
    Event.log .warning
        ("No texture with " ++ shader_name_of_material m ++
          " and ORM/OcclusionRoughnessMetallic/AmbientOcclusion found")
      ∈ material_events h m k := by
  unfold material_events
  exact List.mem_append_left _ (List.mem_append_right _ (warning_mem_orm_events h m _ _ hfp))

lemma orm_wiring_mem_material_events (h : Host) (m p : String) (ta : TextureAsset) (k : Nat)
    (hfind : find_orm_texture h.env (shader_name_of_material m) = some p)
    (hload : load_result h (some p) = some ta)
    (hsrgb : srgb_raises h ta = none) :
    Event.setProp (.tex ta.tname) "srgb" (.pbool false) ∈ material_events h m k ∧
    ∃ n : NodeRef, n.material = m ∧
      Event.connect n "R" .MP_AMBIENT_OCCLUSION ∈ material_events h m k ∧
      Event.connect n "G" .MP_ROUGHNESS ∈ material_events h m k ∧
      Event.connect n "B" .MP_METALLIC ∈ material_events h m k := by
  obtain ⟨w1, w2, w3, w4⟩ :=
    orm_wiring_mem_orm_events h m (shader_name_of_material m) p ta
      (k + bc_delta h (shader_name_of_material m) + normal_delta h (shader_name_of_material m))
      hfind hload hsrgb
  have lift : ∀ ev, ev ∈ orm_events h m (shader_name_of_material m)
      (k + bc_delta h (shader_name_of_material m) + normal_delta h (shader_name_of_material m)) →
      ev ∈ material_events h m k := by
    intro ev hev
    unfold material_events
    exact List.mem_append_left _ (List.mem_append_right _ hev)
  refine ⟨lift _ w1, ⟨_, rfl, lift _ w2, lift _ w3, lift _ w4⟩⟩

lemma creates_for_assets_events (h : Host) (l : List Asset) (m2 : String) (k : Nat) :
    creates_for m2 (assets_events h l k) =
      (material_names l).count m2 * material_delta h m2 := by
  induction l generalizing k with
  | nil => simp [assets_events, material_names, creates_for]
  | cons a rest ih =>
    cases a with
    | material m =>
      by_cases hm : m2 = m
      · subst hm
        simp [assets_events, creates_for_append, creates_for_material_events, material_names,
          ih, List.count_cons]
        ring
      · have hb : (m == m2) = false := by
          rw [beq_eq_false_iff_ne]
          exact fun hh => hm hh.symm
        simp [assets_events, creates_for_append, creates_for_material_events, material_names,
          ih, List.count_cons, hm, hb]
    | other nm => simp [assets_events, material_names, ih]

lemma connect_mem_assets_events (h : Host) (l : List Asset) (k : Nat) (n : NodeRef)
    (o : String) (mp : MatProp)
    (hmem : Event.connect n o mp ∈ assets_events h l k) :
    Asset.material n.material ∈ l ∧ connect_requires h n.material mp := by
  induction l generalizing k with
  | nil => simp [assets_events] at hmem
  | cons a rest ih =>
    cases a with
    | material m =>
      rw [assets_events] at hmem
      rcases List.mem_append.1 hmem with h1 | h2
      · obtain ⟨hmat, hreq⟩ := connect_mem_material_events h m k n o mp h1
        rw [hmat]
        exact ⟨List.mem_cons_self _ _, hreq⟩
      · obtain ⟨hmm, hreq⟩ := ih _ h2
        exact ⟨List.mem_cons_of_mem _ hmm, hreq⟩
    | other nm =>
      rw [assets_events] at hmem
      obtain ⟨hmm, hreq⟩ := ih _ hmem
      exact ⟨List.mem_cons_of_mem _ hmm, hreq⟩

lemma material_block_sub_assets (h : Host) (l : List Asset) (m : String)
    (hm : Asset.material m ∈ l) :
    ∀ k, ∃ k2, ∀ ev, ev ∈ material_events h m k2 → ev ∈ assets_events h l k := by
  induction l with
  | nil => simp at hm
  | cons a rest ih =>
    intro k
    cases a with
    | material m1 =>
      by_cases hme : m1 = m
      · subst hme
        refine ⟨k, fun ev hev => ?_⟩
        rw [assets_events]
        exact List.mem_append_left _ hev
      · have hmrest : Asset.material m ∈ rest := by
          rcases List.mem_cons.1 hm with heq | hr
          · exact absurd (Asset.material.injEq m m1 ▸ heq) (fun hh => hme hh.symm)
          · exact hr
        obtain ⟨k2, hk2⟩ := ih hmrest (k + material_delta h m1)
        refine ⟨k2, fun ev hev => ?_⟩
        rw [assets_events]
        exact List.mem_append_right _ (hk2 ev hev)
    | other nm =>
      have hmrest : Asset.material m ∈ rest := by
        rcases List.mem_cons.1 hm with heq | hr
        · exact absurd heq (by simp)
        · exact hr
      obtain ⟨k2, hk2⟩ := ih hmrest k
      refine ⟨k2, fun ev hev => ?_⟩
      rw [assets_events]
      exact hk2 ev hev

lemma has_material_of_mem (m : String) (l : List Asset) (hm : Asset.material m ∈ l) :
    has_material l = true := by
  induction l with
  | nil => simp at hm
  | cons a rest ih =>
    cases a with
    | material m1 => rfl
    | other nm =>
      have : Asset.material m ∈ rest := by
        rcases List.mem_cons.1 hm with heq | hr
        · exact absurd heq (by simp)
        · exact hr
      simp [has_material, ih this]

lemma isEmpty_false_of_mem (a : Asset) (l : List Asset) (hm : a ∈ l) :
    l.isEmpty = false := by
  cases l with
  | nil => simp at hm
  | cons b rest => rfl

lemma run0_value_benign (h : Host) (hb : Benign h) : run0_value h = .ok (run_result h) := by
  obtain ⟨k, hk⟩ := add_texture_run h hb
  unfold run0_value
  rw [hk]

lemma run0_events_benign (h : Host) (hb : Benign h) : run0_events h = run_events h := by
  obtain ⟨k, hk⟩ := add_texture_run h hb
  unfold run0_events
  rw [hk]



/-- C4: for every processed material and each of the three channels, a
missing texture path produces the corresponding warning log, creates and
connects no expression node for that channel (the number of nodes created
for the material equals the number of successful searches, and no
connection to the channel's material property has a node of this
material), and processing still completes: the material is recompiled and
the processed-materials list is returned.  Proved for hosts whose
uncaught calls do not raise; the material is assumed to occur once in the
selection so that the node count is exact. -/
theorem C4_missing_channel_skipped (h : Host) (hb : Benign h) (m : String)
    (hmem : Asset.material m ∈ h.selected_assets)
    (hcount : (material_names h.selected_assets).count m = 1) :
    run0_value h = .ok (some (material_names h.selected_assets)) ∧
    Event.recompile m ∈ run0_events h ∧
    creates_for m (run0_events h) = material_delta h m ∧
    (strOptFalsy (find_basecolor_texture h.env (shader_name_of_material m)) = true →
      Event.log .warning
          ("No texture with " ++ shader_name_of_material m ++ " and BaseColor found")
        ∈ run0_events h ∧
      ∀ n o, Event.connect n o .MP_BASE_COLOR ∈ run0_events h → n.material ≠ m) ∧
    (strOptFalsy (find_normal_texture h.env (shader_name_of_material m)) = true →
      Event.log .warning
          ("No texture with " ++ shader_name_of_material m ++ " and Normal found")
        ∈ run0_events h ∧
      ∀ n o, Event.connect n o .MP_NORMAL ∈ run0_events h → n.material ≠ m) ∧
    (strOptFalsy (find_orm_texture h.env (shader_name_of_material m)) = true →
      Event.log .warning
          ("No texture with " ++ shader_name_of_material m ++
            " and ORM/OcclusionRoughnessMetallic/AmbientOcclusion found")
        ∈ run0_events h ∧
      ∀ n o mp, (mp = .MP_AMBIENT_OCCLUSION ∨ mp = .MP_ROUGHNESS ∨ mp = .MP_METALLIC) →
        Event.connect n o mp ∈ run0_events h → n.material ≠ m) := by
  have hv := run0_value_benign h hb
  have he := run0_events_benign h hb
  have hsel := isEmpty_false_of_mem _ _ hmem
  have hhm := has_material_of_mem m _ hmem
  have hre : run_events h = assets_events h h.selected_assets 0 ++
      [Event.log .info ("Processed " ++ toString (material_names h.selected_assets).length ++
        " materials in total")] := by
    simp [run_events, hsel, hhm]
  obtain ⟨k2, hk2⟩ := material_block_sub_assets h _ m hmem 0
  refine ⟨?_, ?_, ?_, ?_, ?_, ?_⟩
  · rw [hv]
    simp [run_result, hsel, hhm]
  · rw [he, hre]
    exact List.mem_append_left _ (hk2 _ (recompile_mem_material_events h m k2))
  · rw [he, hre, creates_for_append, creates_for_assets_events, hcount]
    simp [creates_for]
  · intro hfp
    constructor
    · rw [he, hre]
      exact List.mem_append_left _ (hk2 _ (bc_warning_mem_material_events h m k2 hfp))
    · intro n o hconn heq
      rw [he, hre] at hconn
      rcases List.mem_append.1 hconn with h1 | h1
      · obtain ⟨hmm, hreq⟩ := connect_mem_assets_events h _ 0 n o _ h1
        simp only [connect_requires] at hreq
        rw [heq] at hreq
        rw [hfp] at hreq
        exact absurd hreq (by decide)
      · simp at h1
  · intro hfp
    constructor
    · rw [he, hre]
      exact List.mem_append_left _ (hk2 _ (normal_warning_mem_material_events h m k2 hfp))
    · intro n o hconn heq
      rw [he, hre] at hconn
      rcases List.mem_append.1 hconn with h1 | h1
      · obtain ⟨hmm, hreq⟩ := connect_mem_assets_events h _ 0 n o _ h1
        simp only [connect_requires] at hreq
        rw [heq] at hreq
        rw [hfp] at hreq
        exact absurd hreq (by decide)
      · simp at h1
  · intro hfp
    constructor
    · rw [he, hre]
      exact List.mem_append_left _ (hk2 _ (orm_warning_mem_material_events h m k2 hfp))
    · intro n o mp hmp hconn heq
      rw [he, hre] at hconn
      rcases List.mem_append.1 hconn with h1 | h1
      · obtain ⟨hmm, hreq⟩ := connect_mem_assets_events h _ 0 n o _ h1
        rcases hmp with rfl | rfl | rfl <;>
          (simp only [connect_requires] at hreq
           rw [heq] at hreq
           rw [hfp] at hreq
           exact absurd hreq (by decide))
      · simp at h1

theorem C4_witness :
    Event.log .warning
        ("No texture with " ++ shader_name_of_material "Rock" ++ " and BaseColor found")
      ∈ run0_events host_no_textures :=
  ((C4_missing_channel_skipped host_no_textures
    ⟨fun _ _ => rfl, fun _ _ _ => rfl, fun _ _ _ => rfl, fun _ => rfl⟩ "Rock"
    (by decide) (by decide)).2.2.2.1 (by decide)).1

/-- C8: when an ORM texture is found and successfully loaded for a
selected material, its `srgb` property is set to `False` and one sample
node of that material has its `R`, `G` and `B` outputs connected to the
Ambient Occlusion, Roughness and Metallic material properties.  Proved
for hosts whose uncaught calls do not raise and whose sRGB write
succeeds. -/
theorem C8_orm_wiring (h : Host) (hb : Benign h) (m p : String) (ta : TextureAsset)
    (hmem : Asset.material m ∈ h.selected_assets)
    (horm : find_orm_texture h.env (shader_name_of_material m) = some p)
    (hload : load_result h (some p) = some ta)
    (hsrgb : srgb_raises h ta = none) :
    Event.setProp (.tex ta.tname) "srgb" (.pbool false) ∈ run0_events h ∧
    ∃ n : NodeRef, n.material = m ∧
      Event.connect n "R" .MP_AMBIENT_OCCLUSION ∈ run0_events h ∧
      Event.connect n "G" .MP_ROUGHNESS ∈ run0_events h ∧
      Event.connect n "B" .MP_METALLIC ∈ run0_events h := by
  have he := run0_events_benign h hb
  have hsel := isEmpty_false_of_mem _ _ hmem
  have hhm := has_material_of_mem m _ hmem
  have hre : run_events h = assets_events h h.selected_assets 0 ++
      [Event.log .info ("Processed " ++ toString (material_names h.selected_assets).length ++
        " materials in total")] := by
    simp [run_events, hsel, hhm]
  obtain ⟨k2, hk2⟩ := material_block_sub_assets h _ m hmem 0
  obtain ⟨w1, n, hn, w2, w3, w4⟩ := orm_wiring_mem_material_events h m p ta k2 horm hload hsrgb
  rw [he, hre]
  exact ⟨List.mem_append_left _ (hk2 _ w1), n, hn,
    List.mem_append_left _ (hk2 _ w2), List.mem_append_left _ (hk2 _ w3),
    List.mem_append_left _ (hk2 _ w4)⟩

theorem C8_witness :
    Event.setProp (.tex "OrmTex") "srgb" (.pbool false) ∈ run0_events host_orm :=
  (C8_orm_wiring host_orm
    ⟨fun _ _ => rfl, fun _ _ _ => rfl, fun _ _ _ => rfl, fun _ => rfl⟩
    "Rock" "/Game/Tex/rock_sg_occlusionroughnessmetallic" ⟨"OrmTex"⟩
    (by decide) (by rfl) rfl rfl).1

end AutoAssign
